import Mathlib

/-!
Shallow embedding of the Adafruit_VEML6070 driver
(src/Adafruit_VEML6070.h and src/unnamed/part_000, i.e. Adafruit_VEML6070.cpp).

The driver's only mutable state is the one-byte command register shadow
`_commandRegister.reg`, modelled here as a `Nat` kept below 256.  The C
bit-field union

    struct { uint8_t SD:1; uint8_t :1; uint8_t IT:2;
             uint8_t ACK_THD:1; uint8_t ACK:1; } bit;  uint8_t reg;

is modelled by explicit shift/mask accessors and updaters on the raw byte:
SD is bit 0, the unnamed reserved field is bit 1, IT is bits 2-3, ACK_THD is
bit 4, ACK is bit 5.

The external collaborators (the I2C transport `I2C_Receive`/`I2C_Transmit`,
the `OS_Sleep` timing primitive, `I2C_Init`, and `Trace` logging) are not part
of the repository; each operation therefore takes the transport's response to
each bus read it performs as an explicit `Except` argument (error code or
received byte) and returns, besides its C return value and the new register
byte, the list of externally observable events (sleeps, receives, transmits)
it issues, in order.  Transmit responses are omitted: in the source a failed
`I2C_Transmit` is only logged and affects no state and no return value.
-/

namespace VEML6070

/-- VEML6070_ADDR_H (0x39): the address the high data byte is read from. -/
def VEML6070_ADDR_H : Nat := 0x39

/-- VEML6070_ADDR_L (0x38): the address the low data byte is read from, and
the address `writeCommand` transmits the command byte to. -/
def VEML6070_ADDR_L : Nat := 0x38

/-- VEML6070_ADDR_ARA (0x0C): the Alert Response Address, read to clear the
latched interrupt condition. -/
def VEML6070_ADDR_ARA : Nat := 0x0C

/-- The `veml6070_integrationtime_t` enum from the header. -/
inductive veml6070_integrationtime where
  | VEML6070_HALF_T
  | VEML6070_1_T
  | VEML6070_2_T
  | VEML6070_4_T
deriving DecidableEq

/-- Numeric value of each `veml6070_integrationtime_t` enumerator (C enums
number consecutively from 0). -/
def IT_code : veml6070_integrationtime → Nat
  | .VEML6070_HALF_T => 0
  | .VEML6070_1_T => 1
  | .VEML6070_2_T => 2
  | .VEML6070_4_T => 3

/-- Read the SD field (bit 0) of the command register byte. -/
def getSD (reg : Nat) : Nat := reg % 2

/-- Read the unnamed reserved field (bit 1) of the command register byte. -/
def getRes (reg : Nat) : Nat := reg / 2 % 2

/-- Read the IT field (bits 2-3) of the command register byte. -/
def getIT (reg : Nat) : Nat := reg / 4 % 4

/-- Read the ACK_THD field (bit 4) of the command register byte. -/
def getACK_THD (reg : Nat) : Nat := reg / 16 % 2

/-- Read the ACK field (bit 5) of the command register byte. -/
def getACK (reg : Nat) : Nat := reg / 32 % 2

/-- C bit-field assignment `bit.SD = v`: replace bit 0, truncating `v` to the
field width. -/
def setBitSD (reg v : Nat) : Nat := reg / 2 * 2 + v % 2

/-- C bit-field assignment `bit.IT = v`: replace bits 2-3, truncating `v` to
the field width. -/
def setBitIT (reg v : Nat) : Nat := reg % 4 + v % 4 * 4 + reg / 16 * 16

/-- C bit-field assignment `bit.ACK_THD = v`: replace bit 4, truncating `v`
to the field width. -/
def setBitACK_THD (reg v : Nat) : Nat := reg % 16 + v % 2 * 16 + reg / 32 * 32

/-- C bit-field assignment `bit.ACK = v`: replace bit 5, truncating `v` to
the field width. -/
def setBitACK (reg v : Nat) : Nat := reg % 32 + v % 2 * 32 + reg / 64 * 64

/-- The constructor's default command register value:
`_commandRegister.reg = 0x02`. -/
def ctorReg : Nat := 0x02

/-- Externally observable events a driver operation issues, in order:
`OS_Sleep` calls, `I2C_Receive` transactions (by address), `I2C_Transmit`
transactions (address and transmitted byte), and the one-off `I2C_Init`. -/
inductive Event where
  | sleepEv (ms : Nat)
  | receiveEv (addr : Nat)
  | transmitEv (addr : Nat) (byte : Nat)
  | i2cInitEv
deriving DecidableEq

/-- The role a bus address plays in the driver, and the concrete address each
role maps to at the call sites of the source: `writeCommand` transmits at
`VEML6070_ADDR_L`, `readUV` receives the high byte at `VEML6070_ADDR_H` and
the low byte at `VEML6070_ADDR_L`, and `clearAck` receives at
`VEML6070_ADDR_ARA`. -/
inductive BusRole where
  | CommandWrite
  | DataHigh
  | DataLow
  | AlertClear
deriving DecidableEq

/-- Address used by the source for each bus role (see `BusRole`). -/
def busAddr : BusRole → Nat
  | .CommandWrite => VEML6070_ADDR_L
  | .DataHigh => VEML6070_ADDR_H
  | .DataLow => VEML6070_ADDR_L
  | .AlertClear => VEML6070_ADDR_ARA

/-- Adafruit_VEML6070::clearAck.  `res` starts at 0; one `I2C_Receive` at
`VEML6070_ADDR_ARA` fills it on success and leaves it 0 on error (the error
is only logged); the C return converts the byte to `bool` (nonzero is true).
`resp` is the transport's response: error code, or the received byte. -/
def clearAck (resp : Except Nat Nat) : Bool × List Event :=
  let res : Nat := match resp with
    | .ok b => b % 256
    | .error _ => 0
  (res != 0, [Event.receiveEv VEML6070_ADDR_ARA])

/-- Adafruit_VEML6070::writeCommand: one `I2C_Transmit` of the current
command register byte to `VEML6070_ADDR_L`; a transmit error is only
logged. -/
def writeCommand (reg : Nat) : List Event :=
  [Event.transmitEv VEML6070_ADDR_L reg]

/-- The loop `uint8_t itCount = 1; for (i = IT; i > 0; i--) itCount *= 2;`
of Adafruit_VEML6070::waitForNext. -/
def itCountLoop : Nat → Nat
  | 0 => 1
  | n + 1 => 2 * itCountLoop n

/-- Adafruit_VEML6070::waitForNext: `itCount` sleeps of 63 ms each, where
`itCount` is computed from the IT field by `itCountLoop`. -/
def waitForNext (reg : Nat) : List Event :=
  List.replicate (itCountLoop (getIT reg)) (Event.sleepEv 63)

/-- Adafruit_VEML6070::readUV: `waitForNext()`, then receive the high byte at
`VEML6070_ADDR_H`, then receive the low byte at `VEML6070_ADDR_L`; on either
receive error return `(uint16_t)(-1) = 65535` at once (the second receive is
not attempted after the first fails); on success return
`(uint16_t)((highByte << 8) | lowByte)`.  `respH` and `respL` are the
transport's responses to the two receives. -/
def readUV (respH respL : Except Nat Nat) (reg : Nat) : Nat × List Event :=
  match respH with
  | .error _ => (65535, waitForNext reg ++ [Event.receiveEv VEML6070_ADDR_H])
  | .ok h =>
    match respL with
    | .error _ =>
        (65535, waitForNext reg ++
          [Event.receiveEv VEML6070_ADDR_H, Event.receiveEv VEML6070_ADDR_L])
    | .ok l =>
        (((h % 256) <<< 8 ||| l % 256) % 65536, waitForNext reg ++
          [Event.receiveEv VEML6070_ADDR_H, Event.receiveEv VEML6070_ADDR_L])

/-- Adafruit_VEML6070::begin: `I2C_Init`, set the IT field to `itime`, then
`clearAck()` (its boolean result is discarded), then `writeCommand()`.
Returns the new register byte and the event list.  `ackResp` is the
transport's response to the clearAck receive. -/
def begin (itime : veml6070_integrationtime) (ackResp : Except Nat Nat)
    (reg : Nat) : Nat × List Event :=
  let reg1 := setBitIT reg (IT_code itime)
  (reg1, Event.i2cInitEv :: (clearAck ackResp).2 ++ writeCommand reg1)

/-- Adafruit_VEML6070::setInterrupt: set ACK to `state` and ACK_THD to
`level`, then `clearAck()` (result discarded), then `writeCommand()`. -/
def setInterrupt (state level : Bool) (ackResp : Except Nat Nat)
    (reg : Nat) : Nat × List Event :=
  let reg1 := setBitACK_THD (setBitACK reg (if state then 1 else 0))
    (if level then 1 else 0)
  (reg1, (clearAck ackResp).2 ++ writeCommand reg1)

/-- Adafruit_VEML6070::sleep: set SD to `state`, then `writeCommand()`
(no alert-clear). -/
def sleep (state : Bool) (reg : Nat) : Nat × List Event :=
  let reg1 := setBitSD reg (if state then 1 else 0)
  (reg1, writeCommand reg1)

/-- Keep only the bus transactions (receives and transmits) of an event
list, dropping sleeps and `I2C_Init`. -/
def isBusEv : Event → Bool
  | .receiveEv _ => true
  | .transmitEv _ _ => true
  | _ => false

/-- The subsequence of bus transactions of an event list. -/
def busTrace (tr : List Event) : List Event := tr.filter isBusEv

/-- The bytes transmitted to the device by an event list, in order. -/
def transmittedBytes : List Event → List Nat
  | [] => []
  | Event.transmitEv _ b :: rest => b :: transmittedBytes rest
  | Event.receiveEv _ :: rest => transmittedBytes rest
  | Event.sleepEv _ :: rest => transmittedBytes rest
  | Event.i2cInitEv :: rest => transmittedBytes rest

/-- One invocation of a public driver operation, together with the transport
responses it consumes. -/
inductive Op where
  | beginOp (itime : veml6070_integrationtime) (ackResp : Except Nat Nat)
  | setInterruptOp (state level : Bool) (ackResp : Except Nat Nat)
  | sleepOp (state : Bool)
  | readUVOp (respH respL : Except Nat Nat)
  | clearAckOp (resp : Except Nat Nat)
  | writeCommandOp

/-- Apply one operation to the command register byte, returning the new byte
and the events issued (`readUV`, `clearAck` and `writeCommand` leave the
register unchanged). -/
def runOp : Op → Nat → Nat × List Event
  | .beginOp itime r, reg => begin itime r reg
  | .setInterruptOp st lv r, reg => setInterrupt st lv r reg
  | .sleepOp st, reg => sleep st reg
  | .readUVOp rH rL, reg => (reg, (readUV rH rL reg).2)
  | .clearAckOp r, reg => (reg, (clearAck r).2)
  | .writeCommandOp, reg => (reg, writeCommand reg)

/-- Run a sequence of operations from a starting register byte, concatenating
the events issued. -/
def run : List Op → Nat → Nat × List Event
  | [], reg => (reg, [])
  | op :: ops, reg =>
      ((run ops (runOp op reg).1).1, (runOp op reg).2 ++ (run ops (runOp op reg).1).2)

/- Helper lemmas. -/

theorem combine_eq (h l : Nat) (hh : h < 256) (hl : l < 256) :
    h <<< 8 ||| l = h * 256 + l := by
  have e : h <<< 8 = 2 ^ 8 * h := by
    rw [Nat.shiftLeft_eq]; ring
  rw [e, ← Nat.mul_add_lt_is_or hl h]
  ring

theorem combine_lt (h l : Nat) (hh : h < 256) (hl : l < 256) :
    h <<< 8 ||| l < 65536 := by
  rw [combine_eq h l hh hl]; omega

/-- C1: for every pair of successfully read bytes `(high, low)` in
[0,255]×[0,255], `readUV` issues the integration wait, then the high-byte
receive at `VEML6070_ADDR_H`, then the low-byte receive at `VEML6070_ADDR_L`,
in that fixed order, and returns `(high <<< 8) ||| low`. -/
theorem readUV_success_spec (reg high low : Nat)
    (hh : high < 256) (hl : low < 256) :
    (readUV (Except.ok high) (Except.ok low) reg).1 = (high <<< 8 ||| low) ∧
    (readUV (Except.ok high) (Except.ok low) reg).2 =
      waitForNext reg ++
        [Event.receiveEv VEML6070_ADDR_H, Event.receiveEv VEML6070_ADDR_L] := by
  refine ⟨?_, rfl⟩
  show ((high % 256) <<< 8 ||| low % 256) % 65536 = high <<< 8 ||| low
  rw [Nat.mod_eq_of_lt hh, Nat.mod_eq_of_lt hl,
    Nat.mod_eq_of_lt (combine_lt high low hh hl)]

theorem readUV_success_spec_witness :
    (1 : Nat) < 256 ∧ (2 : Nat) < 256 ∧
    ((readUV (Except.ok 1) (Except.ok 2) ctorReg).1 = (1 <<< 8 ||| 2) ∧
      (readUV (Except.ok 1) (Except.ok 2) ctorReg).2 =
        waitForNext ctorReg ++
          [Event.receiveEv VEML6070_ADDR_H, Event.receiveEv VEML6070_ADDR_L]) :=
  ⟨by decide, by decide, readUV_success_spec ctorReg 1 2 (by decide) (by decide)⟩

/-- C2: if the high-byte read or the low-byte read fails with a transport
error, `readUV` returns the single sentinel failure value
`(uint16_t)(-1) = 65535`, never a combination of one successfully read byte
with a defaulted byte. -/
theorem readUV_failure_spec (reg : Nat) (respH respL : Except Nat Nat)
    (h : (∃ e, respH = Except.error e) ∨ (∃ e, respL = Except.error e)) :
    (readUV respH respL reg).1 = 65535 := by
  rcases h with ⟨e, he⟩ | ⟨e, he⟩
  · subst he; rfl
  · subst he; cases respH <;> rfl

theorem readUV_failure_spec_witness :
    ((∃ e, (Except.error 3 : Except Nat Nat) = Except.error e) ∨
      (∃ e, (Except.ok 7 : Except Nat Nat) = Except.error e)) ∧
    (readUV (Except.error 3) (Except.ok 7) ctorReg).1 = 65535 :=
  ⟨Or.inl ⟨3, rfl⟩,
    readUV_failure_spec ctorReg (Except.error 3) (Except.ok 7) (Or.inl ⟨3, rfl⟩)⟩

/-- C3 counterexample: the sentinel 65535 is not distinct from every value a
pair of successful reads can produce: when both data bytes read back as 255
the successful result is also 65535, the same value `readUV` returns when
both reads fail. -/
theorem readUV_sentinel_counterexample :
    (readUV (Except.ok 255) (Except.ok 255) ctorReg).1 = 65535 ∧
    (readUV (Except.error 0) (Except.error 0) ctorReg).1 = 65535 := by decide

/-- C3 (amended): the failure sentinel is 65535 (`(uint16_t)(-1)`); it is
distinct from every successful result except the one reading high=255,
low=255, with which it coincides. -/
theorem readUV_sentinel_amended (reg high low : Nat)
    (hh : high < 256) (hl : low < 256) :
    ((readUV (Except.ok high) (Except.ok low) reg).1 = 65535 ↔
      high = 255 ∧ low = 255) ∧
    (readUV (Except.error 0) (Except.error 0) reg).1 = 65535 := by
  refine ⟨?_, rfl⟩
  show ((high % 256) <<< 8 ||| low % 256) % 65536 = 65535 ↔
    high = 255 ∧ low = 255
  rw [Nat.mod_eq_of_lt hh, Nat.mod_eq_of_lt hl, combine_eq high low hh hl]
  rw [Nat.mod_eq_of_lt (by omega : high * 256 + low < 65536)]
  omega

theorem readUV_sentinel_amended_witness :
    (255 : Nat) < 256 ∧
    (((readUV (Except.ok 255) (Except.ok 255) ctorReg).1 = 65535 ↔
        (255 : Nat) = 255 ∧ (255 : Nat) = 255) ∧
      (readUV (Except.error 0) (Except.error 0) ctorReg).1 = 65535) :=
  ⟨by decide, readUV_sentinel_amended ctorReg 255 255 (by decide) (by decide)⟩

/-- Sleep-call count the claim assigns to each IntegrationTime variant
(Half 1, One 2, Two 4, Four 8); stated from the claim's words, to be compared
with the source's `itCountLoop` over the IT field. -/
def specSleepCount : veml6070_integrationtime → Nat
  | .VEML6070_HALF_T => 1
  | .VEML6070_1_T => 2
  | .VEML6070_2_T => 4
  | .VEML6070_4_T => 8

/-- C4: for each of the four IntegrationTime variants, `waitForNext` issues
exactly {1, 2, 4, 8} sleep calls respectively, each of the fixed 63 ms
duration. -/
theorem waitForNext_sleep_calls (reg : Nat) (it : veml6070_integrationtime)
    (h : getIT reg = IT_code it) :
    waitForNext reg = List.replicate (specSleepCount it) (Event.sleepEv 63) := by
  cases it <;> (unfold waitForNext; rw [h]) <;> rfl

theorem waitForNext_sleep_calls_witness :
    getIT ctorReg = IT_code veml6070_integrationtime.VEML6070_HALF_T ∧
    waitForNext ctorReg =
      List.replicate (specSleepCount veml6070_integrationtime.VEML6070_HALF_T)
        (Event.sleepEv 63) :=
  ⟨rfl, waitForNext_sleep_calls ctorReg _ rfl⟩

/-- C5 counterexample: the constructor byte 0x02 does not decode as the claim
states: its IT field is 0 (VEML6070_HALF_T), not 1 (VEML6070_1_T), and its
reserved bit (bit 1) is 1, not 0. -/
theorem ctorReg_counterexample :
    ¬ (getSD ctorReg = 0 ∧ getRes ctorReg = 0 ∧
       getIT ctorReg = IT_code veml6070_integrationtime.VEML6070_1_T ∧
       getACK_THD ctorReg = 0 ∧ getACK ctorReg = 0) := by decide

/-- C5 (amended): immediately after construction the command byte (0x02)
encodes shutdown SD=0, integration time IT=0 (VEML6070_HALF_T, ×0.5),
ACK_THD=0, ACK=0, and the reserved bit (bit 1) is 1. -/
theorem ctorReg_fields :
    getSD ctorReg = 0 ∧ getRes ctorReg = 1 ∧
    getIT ctorReg = IT_code veml6070_integrationtime.VEML6070_HALF_T ∧
    getACK_THD ctorReg = 0 ∧ getACK ctorReg = 0 := by decide

/-- C6 counterexample: the four bus-address roles are not pairwise distinct:
`writeCommand` transmits the command byte at 0x38, the very address `readUV`
reads the low data byte from. -/
theorem busAddr_counterexample :
    busAddr BusRole.CommandWrite = busAddr BusRole.DataLow ∧
    busAddr BusRole.CommandWrite = 0x38 ∧
    writeCommand ctorReg = [Event.transmitEv 0x38 ctorReg] ∧
    (readUV (Except.ok 0) (Except.ok 0) ctorReg).2 =
      [Event.sleepEv 63, Event.receiveEv 0x39, Event.receiveEv 0x38] := by decide

/-- C6 (amended): the DataHigh (0x39) and AlertClear (0x0C) roles map to
addresses distinct from each other and from the rest, but the CommandWrite
and DataLow roles share the single address 0x38: three distinct bus
addresses, not four, and `writeCommand` transmits at the same address the low
data byte is read from. -/
theorem busAddr_roles (reg : Nat) :
    busAddr BusRole.CommandWrite = busAddr BusRole.DataLow ∧
    busAddr BusRole.DataHigh ≠ busAddr BusRole.DataLow ∧
    busAddr BusRole.AlertClear ≠ busAddr BusRole.DataLow ∧
    busAddr BusRole.DataHigh ≠ busAddr BusRole.AlertClear ∧
    busAddr BusRole.CommandWrite = 0x38 ∧
    busAddr BusRole.DataHigh = 0x39 ∧
    busAddr BusRole.AlertClear = 0x0C ∧
    writeCommand reg = [Event.transmitEv (busAddr BusRole.CommandWrite) reg] ∧
    (clearAck (Except.ok 0)).2 = [Event.receiveEv (busAddr BusRole.AlertClear)] :=
  ⟨rfl, by decide, by decide, by decide, rfl, rfl, rfl, rfl, rfl⟩

/-- C7: `clearAck` returns true exactly when the byte read from the
alert-clear address is non-zero, and false both when that byte is zero and
when the read fails with a transport error. -/
theorem clearAck_spec (b e : Nat) (hb : b < 256) :
    ((clearAck (Except.ok b)).1 = true ↔ b ≠ 0) ∧
    (clearAck (Except.error e)).1 = false := by
  refine ⟨?_, rfl⟩
  show (b % 256 != 0) = true ↔ b ≠ 0
  rw [Nat.mod_eq_of_lt hb]
  simp

theorem clearAck_spec_witness :
    (5 : Nat) < 256 ∧
    (((clearAck (Except.ok 5)).1 = true ↔ (5 : Nat) ≠ 0) ∧
      (clearAck (Except.error 9)).1 = false) :=
  ⟨by decide, clearAck_spec 5 9 (by decide)⟩

theorem begin_fst (itime : veml6070_integrationtime) (r : Except Nat Nat)
    (reg : Nat) : (begin itime r reg).1 = setBitIT reg (IT_code itime) := rfl

/-- C8: for every requested IntegrationTime, `begin` performs exactly one
alert-clear receive followed by exactly one command transmit, in that order,
and afterwards the in-memory command byte has its IT field equal to the
requested value and SD = 0. -/
theorem begin_spec (it : veml6070_integrationtime) (ackResp : Except Nat Nat) :
    getIT (begin it ackResp ctorReg).1 = IT_code it ∧
    getSD (begin it ackResp ctorReg).1 = 0 ∧
    busTrace (begin it ackResp ctorReg).2 =
      [Event.receiveEv VEML6070_ADDR_ARA,
       Event.transmitEv VEML6070_ADDR_L (begin it ackResp ctorReg).1] := by
  cases it <;> refine ⟨?_, ?_, rfl⟩ <;> rw [begin_fst] <;> decide

/-- C9: `setInterrupt true true` followed by `setInterrupt false false`
leaves the encoded command byte with ACK = 0 and ACK_THD = 0, and each of
the two calls performs its alert-clear receive before its command
transmit. -/
theorem setInterrupt_toggle (reg : Nat) (r1 r2 : Except Nat Nat) :
    getACK (setInterrupt false false r2 (setInterrupt true true r1 reg).1).1 = 0 ∧
    getACK_THD
      (setInterrupt false false r2 (setInterrupt true true r1 reg).1).1 = 0 ∧
    busTrace (setInterrupt true true r1 reg).2 =
      [Event.receiveEv VEML6070_ADDR_ARA,
       Event.transmitEv VEML6070_ADDR_L (setInterrupt true true r1 reg).1] ∧
    busTrace (setInterrupt false false r2 (setInterrupt true true r1 reg).1).2 =
      [Event.receiveEv VEML6070_ADDR_ARA,
       Event.transmitEv VEML6070_ADDR_L
         (setInterrupt false false r2 (setInterrupt true true r1 reg).1).1] := by
  have hA : ∀ x : Nat, getACK (setBitACK_THD (setBitACK x 0) 0) = 0 := by
    intro x; simp only [getACK, setBitACK, setBitACK_THD]; omega
  have hT : ∀ x : Nat, getACK_THD (setBitACK_THD (setBitACK x 0) 0) = 0 := by
    intro x; simp only [getACK_THD, setBitACK, setBitACK_THD]; omega
  exact ⟨hA _, hT _, rfl, rfl⟩

theorem getRes_setBitSD (reg v : Nat) : getRes (setBitSD reg v) = getRes reg := by
  simp only [getRes, setBitSD]; omega

theorem getRes_setBitIT (reg v : Nat) : getRes (setBitIT reg v) = getRes reg := by
  simp only [getRes, setBitIT]; omega

theorem getRes_setBitACK_THD (reg v : Nat) :
    getRes (setBitACK_THD reg v) = getRes reg := by
  simp only [getRes, setBitACK_THD]; omega

theorem getRes_setBitACK (reg v : Nat) :
    getRes (setBitACK reg v) = getRes reg := by
  simp only [getRes, setBitACK]; omega

theorem transmittedBytes_append (t1 t2 : List Event) :
    transmittedBytes (t1 ++ t2) = transmittedBytes t1 ++ transmittedBytes t2 := by
  induction t1 with
  | nil => rfl
  | cons e rest ih => cases e <;> simp [transmittedBytes, ih]

theorem transmittedBytes_replicate_sleep (n d : Nat) :
    transmittedBytes (List.replicate n (Event.sleepEv d)) = [] := by
  induction n with
  | zero => rfl
  | succ k ih => simpa [List.replicate_succ, transmittedBytes] using ih

theorem runOp_reserved (op : Op) (reg : Nat) (h : getRes reg = 1) :
    getRes (runOp op reg).1 = 1 ∧
    (transmittedBytes (runOp op reg).2).all (fun b => getRes b == 1) = true := by
  cases op with
  | beginOp it r =>
      refine ⟨?_, ?_⟩
      · show getRes (setBitIT reg (IT_code it)) = 1
        rw [getRes_setBitIT]; exact h
      · show ([setBitIT reg (IT_code it)].all (fun b => getRes b == 1)) = true
        simp [getRes_setBitIT, h]
  | setInterruptOp st lv r =>
      refine ⟨?_, ?_⟩
      · show getRes (setBitACK_THD (setBitACK reg (if st then 1 else 0))
          (if lv then 1 else 0)) = 1
        rw [getRes_setBitACK_THD, getRes_setBitACK]; exact h
      · show ([setBitACK_THD (setBitACK reg (if st then 1 else 0))
          (if lv then 1 else 0)].all (fun b => getRes b == 1)) = true
        simp [getRes_setBitACK_THD, getRes_setBitACK, h]
  | sleepOp st =>
      refine ⟨?_, ?_⟩
      · show getRes (setBitSD reg (if st then 1 else 0)) = 1
        rw [getRes_setBitSD]; exact h
      · show ([setBitSD reg (if st then 1 else 0)].all (fun b => getRes b == 1)) = true
        simp [getRes_setBitSD, h]
  | readUVOp rH rL =>
      refine ⟨h, ?_⟩
      cases rH <;> [skip; cases rL] <;>
        simp [runOp, readUV, waitForNext, transmittedBytes_append,
          transmittedBytes_replicate_sleep, transmittedBytes]
  | clearAckOp r => exact ⟨h, rfl⟩
  | writeCommandOp =>
      refine ⟨h, ?_⟩
      show ([reg].all (fun b => getRes b == 1)) = true
      simp [h]

theorem run_reserved (ops : List Op) (reg : Nat) (h : getRes reg = 1) :
    getRes (run ops reg).1 = 1 ∧
    (transmittedBytes (run ops reg).2).all (fun b => getRes b == 1) = true := by
  induction ops generalizing reg with
  | nil => exact ⟨h, rfl⟩
  | cons op ops ih =>
      obtain ⟨h1, h2⟩ := runOp_reserved op reg h
      obtain ⟨h3, h4⟩ := ih (runOp op reg).1 h1
      refine ⟨h3, ?_⟩
      show (transmittedBytes
        ((runOp op reg).2 ++ (run ops (runOp op reg).1).2)).all
          (fun b => getRes b == 1) = true
      rw [transmittedBytes_append, List.all_append, h2, h4]
      rfl

/-- C10: starting from the constructor's command byte, whose reserved bit
(bit 1) is 1, every sequence of driver operations (begin, setInterrupt,
sleep, readUV, clearAck, writeCommand) preserves that bit, and every command
byte transmitted to the device along the way has bit 1 = 1. -/
theorem reserved_bit_invariant (ops : List Op) :
    getRes ctorReg = 1 ∧
    getRes (run ops ctorReg).1 = 1 ∧
    (transmittedBytes (run ops ctorReg).2).all (fun b => getRes b == 1) = true :=
  ⟨rfl, run_reserved ops ctorReg rfl⟩

end VEML6070
